import Mathlib

/-!
Verification of the Philia server's Adaptive Memory Retrieval & Consistency
Engine against its natural-language specification.

The Python sources embedded here (shallowly, over exact rational arithmetic):
- `backend/app/services/memory_dedup_service.py` (`check_duplicate_memory`)
- `backend/app/services/memory_conflict_service.py`
  (`detect_conflicting_memory`, `mark_memory_as_outdated`,
  `handle_memory_conflict`)
- `backend/app/services/chat/nodes.py`
  (`route_question`, `retrieve_memory`, `_retrieve_memory_fallback`,
  `should_retrieve`)

External collaborators are modelled as parameters:
- the embedding provider is a function `embedOf : String → List ℚ`;
- the vector index's cosine similarity (`1 - (embedding <=> query)` in the
  pgvector SQL) is a function `sim : List ℚ → List ℚ → ℚ` of the stored
  embedding and the query embedding; the SQL's filter / ORDER BY / LIMIT
  logic is embedded explicitly over an in-memory table (`List MemoryRecord`);
- the LLM conflict adjudicator is a boolean oracle
  `oracle : String → String → Bool` (new content, existing content);
- the `try/except` fail-open branches around the database calls are modelled
  by boolean flags (`searchOk`, `markOk`) selecting the `except` branch.

Results additionally carry instrumentation fields (`searched`,
`adjudicated`) recording which external calls the control flow reached;
they do not influence any returned value.
-/

namespace Philia

/-- Fixed-dimension embedding vector, over exact rationals. -/
abbrev Embedding := List ℚ

/-- A row of the `target_memory` table, with the columns the engine reads.
`happened_at` is a timestamp measured in days (rational). -/
structure MemoryRecord where
  id : Nat
  target_id : Nat
  content : Option String
  embedding : Option Embedding
  happened_at : ℚ
  source_type : String
  sentiment_score : Int
  status : String
deriving DecidableEq

/-- Python `not content or not content.strip()`: the string is empty or
consists of whitespace only. -/
def isBlank (s : String) : Bool :=
  s.data.all Char.isWhitespace

/-- The zero-vector sentinel test both services use:
`all(v == 0.0 for v in embedding[:10])`. -/
def zeroPrefix10 (emb : Embedding) : Bool :=
  (emb.take 10).all (fun v => v == 0)

/-- Insert into a list sorted descending by `key`
(model of SQL `ORDER BY embedding <=> query`, similarity descending). -/
def insertDescBy {α : Type} (key : α → ℚ) (a : α) : List α → List α
  | [] => [a]
  | b :: l => if key b ≤ key a then a :: b :: l else b :: insertDescBy key a l

/-- Sort descending by `key`. -/
def sortDescBy {α : Type} (key : α → ℚ) : List α → List α
  | [] => []
  | a :: l => insertDescBy key a (sortDescBy key l)

theorem mem_insertDescBy {α : Type} (key : α → ℚ) (a : α) (l : List α) (x : α) :
    x ∈ insertDescBy key a l ↔ x = a ∨ x ∈ l := by
  induction l with
  | nil => simp [insertDescBy]
  | cons b t ih =>
    by_cases h : key b ≤ key a
    · simp [insertDescBy, h]
    · simp [insertDescBy, h, ih]
      tauto

theorem mem_sortDescBy {α : Type} (key : α → ℚ) (l : List α) (x : α) :
    x ∈ sortDescBy key l ↔ x ∈ l := by
  induction l with
  | nil => simp [sortDescBy]
  | cons a t ih => simp [sortDescBy, mem_insertDescBy, ih]

theorem pairwise_insertDescBy {α : Type} (key : α → ℚ) (a : α) (l : List α)
    (h : l.Pairwise (fun x y => key y ≤ key x)) :
    (insertDescBy key a l).Pairwise (fun x y => key y ≤ key x) := by
  induction l with
  | nil => simp [insertDescBy]
  | cons b t ih =>
    rcases List.pairwise_cons.mp h with ⟨hb, ht⟩
    by_cases hba : key b ≤ key a
    · simp only [insertDescBy, if_pos hba]
      refine List.pairwise_cons.mpr ⟨?_, h⟩
      intro y hy
      rcases List.mem_cons.mp hy with rfl | hy
      · exact hba
      · exact le_trans (hb y hy) hba
    · simp only [insertDescBy, if_neg hba]
      refine List.pairwise_cons.mpr ⟨?_, ih ht⟩
      intro y hy
      rcases (mem_insertDescBy key a t y).mp hy with rfl | hy
      · exact le_of_lt (lt_of_not_le hba)
      · exact hb y hy

theorem pairwise_sortDescBy {α : Type} (key : α → ℚ) (l : List α) :
    (sortDescBy key l).Pairwise (fun x y => key y ≤ key x) := by
  induction l with
  | nil => simp [sortDescBy]
  | cons a t ih => exact pairwise_insertDescBy key a _ ih

/-- `memory_dedup_service.SIMILARITY_THRESHOLD = 0.92`. -/
def SIMILARITY_THRESHOLD : ℚ := 92 / 100

/-- `memory_conflict_service.CONFLICT_SIMILARITY_THRESHOLD = 0.75`. -/
def CONFLICT_SIMILARITY_THRESHOLD : ℚ := 75 / 100

/-- The WHERE clause shared by the dedup and conflict candidate queries
(without the conflict query's extra similarity bound):
`target_id = :target_id AND embedding IS NOT NULL AND content IS NOT NULL
AND status = 'active'`. -/
def activeEligible (tid : Nat) (r : MemoryRecord) : Bool :=
  r.target_id == tid && r.embedding.isSome && r.content.isSome &&
    r.status == "active"

/-- The dedup query: nearest active record by cosine distance
(`ORDER BY embedding <=> query LIMIT 1`), i.e. the head of the
similarity-descending ordering. -/
def nearestActiveMemory (sim : Embedding → Embedding → ℚ)
    (store : List MemoryRecord) (tid : Nat) (qemb : Embedding) :
    Option MemoryRecord :=
  (sortDescBy (fun r => sim (r.embedding.getD []) qemb)
    (store.filter (activeEligible tid))).head?

/-- Result tuple of `check_duplicate_memory`:
`(是否重复, 重复记忆的ID, 相似度分数)`, plus the `searched` instrumentation
flag recording whether control reached the similarity search. -/
structure DedupResult where
  is_duplicate : Bool
  memory_id : Option Nat
  similarity : Option ℚ
  searched : Bool
deriving DecidableEq

/-- `memory_dedup_service.check_duplicate_memory`.  `searchOk = false`
selects the `except` branch of the `try` around the database query. -/
def check_duplicate_memory (searchOk : Bool) (embedOf : String → Embedding)
    (sim : Embedding → Embedding → ℚ) (store : List MemoryRecord)
    (target_id : Nat) (content : String) (embedding? : Option Embedding)
    (similarity_threshold : ℚ) : DedupResult :=
  if isBlank content then ⟨false, none, none, false⟩
  else
    let embedding := embedding?.getD (embedOf content)
    if zeroPrefix10 embedding then ⟨false, none, none, false⟩
    else if searchOk then
      match nearestActiveMemory sim store target_id embedding with
      | none => ⟨false, none, none, true⟩
      | some r =>
        let similarity := sim (r.embedding.getD []) embedding
        if similarity_threshold ≤ similarity then
          ⟨true, some r.id, some similarity, true⟩
        else
          ⟨false, none, some similarity, true⟩
    else ⟨false, none, none, true⟩

/-- A row `(id, content, similarity)` returned by the conflict candidate
query. -/
structure Candidate where
  id : Nat
  content : String
  similarity : ℚ
deriving DecidableEq

/-- The conflict candidate query: active eligible rows of the owner with
`1 - (embedding <=> query) >= :threshold`, ordered by similarity
descending, `LIMIT 3`. -/
def conflictCandidates (sim : Embedding → Embedding → ℚ)
    (store : List MemoryRecord) (tid : Nat) (qemb : Embedding)
    (threshold : ℚ) : List Candidate :=
  ((sortDescBy (fun r => sim (r.embedding.getD []) qemb)
      (store.filter (fun r =>
        activeEligible tid r &&
          decide (threshold ≤ sim (r.embedding.getD []) qemb)))).take 3).map
    (fun r => ⟨r.id, r.content.getD "", sim (r.embedding.getD []) qemb⟩)

/-- The adjudication loop of `detect_conflicting_memory`: ask the LLM
oracle candidate by candidate, stop at the first "yes".  The second
component records which candidates were actually sent to the oracle,
in order. -/
def adjudicateLoop (oracle : String → String → Bool) (new_content : String) :
    List Candidate → Option Candidate × List Candidate
  | [] => (none, [])
  | c :: rest =>
    if oracle new_content c.content then (some c, [c])
    else
      let p := adjudicateLoop oracle new_content rest
      (p.1, c :: p.2)

/-- Result tuple of `detect_conflicting_memory`:
`(是否冲突, 冲突记忆ID, 冲突记忆内容, 相似度分数)`, plus instrumentation:
`searched` records whether control reached the candidate query and
`adjudicated` which candidates were sent to the LLM. -/
structure DetectResult where
  is_conflict : Bool
  memory_id : Option Nat
  content : Option String
  similarity : Option ℚ
  searched : Bool
  adjudicated : List Candidate
deriving DecidableEq

/-- `memory_conflict_service.detect_conflicting_memory`. -/
def detect_conflicting_memory (searchOk : Bool)
    (oracle : String → String → Bool) (embedOf : String → Embedding)
    (sim : Embedding → Embedding → ℚ) (store : List MemoryRecord)
    (target_id : Nat) (new_content : String)
    (embedding? : Option Embedding) (similarity_threshold : ℚ) :
    DetectResult :=
  if isBlank new_content then ⟨false, none, none, none, false, []⟩
  else
    let embedding := embedding?.getD (embedOf new_content)
    if zeroPrefix10 embedding then ⟨false, none, none, none, false, []⟩
    else if searchOk then
      let candidates :=
        conflictCandidates sim store target_id embedding similarity_threshold
      let p := adjudicateLoop oracle new_content candidates
      match p.1 with
      | some c => ⟨true, some c.id, some c.content, some c.similarity, true, p.2⟩
      | none => ⟨false, none, none, none, true, p.2⟩
    else ⟨false, none, none, none, true, []⟩

/-- `memory_conflict_service.mark_memory_as_outdated`: flip the record's
`status` to `outdated` and commit; on failure (`markOk = false`) roll back,
leaving the store unchanged, and report `false`. -/
def mark_memory_as_outdated (markOk : Bool) (store : List MemoryRecord)
    (memory_id : Nat) : Bool × List MemoryRecord :=
  if markOk then
    (true, store.map (fun r =>
      if r.id == memory_id then { r with status := "outdated" } else r))
  else (false, store)

/-- The dict `handle_memory_conflict` returns on a confirmed conflict. -/
structure ConflictInfo where
  replaced_memory_id : Nat
  replaced_content : Option String
  similarity : Option ℚ
deriving DecidableEq

/-- `memory_conflict_service.handle_memory_conflict`, returning the
optional conflict info together with the resulting store. -/
def handle_memory_conflict (searchOk markOk : Bool)
    (oracle : String → String → Bool) (embedOf : String → Embedding)
    (sim : Embedding → Embedding → ℚ) (store : List MemoryRecord)
    (target_id : Nat) (new_content : String)
    (embedding? : Option Embedding) :
    Option ConflictInfo × List MemoryRecord :=
  let d := detect_conflicting_memory searchOk oracle embedOf sim store
    target_id new_content embedding? CONFLICT_SIMILARITY_THRESHOLD
  match d.is_conflict, d.memory_id with
  | true, some mid =>
    let p := mark_memory_as_outdated markOk store mid
    if p.1 then (some ⟨mid, d.content, d.similarity⟩, p.2) else (none, p.2)
  | true, none => (none, store)
  | false, _ => (none, store)

/-- Python `s.lower()` (character-wise lowering). -/
def lowerStr (s : String) : String :=
  ⟨s.data.map Char.toLower⟩

/-- Python `s.split()`: maximal runs of non-whitespace characters, no
empty tokens.  `acc` accumulates the current token reversed. -/
def splitWsAux : List Char → List Char → List String
  | [], acc => if acc.isEmpty then [] else [⟨acc.reverse⟩]
  | c :: cs, acc =>
    if c.isWhitespace then
      if acc.isEmpty then splitWsAux cs []
      else ⟨acc.reverse⟩ :: splitWsAux cs []
    else splitWsAux cs (c :: acc)

/-- `set(user_message.lower().split())`: the distinct lower-cased query
tokens (only their count over a membership test is ever used, so the
set is modelled as a duplicate-free list). -/
def queryKeywords (user_message : String) : List String :=
  (splitWsAux (lowerStr user_message).data []).dedup

/-- Python `needle in hay` on strings: substring occurrence. -/
def hasSubstr (hay needle : List Char) : Bool :=
  if needle.isPrefixOf hay then true
  else
    match hay with
    | [] => false
    | _ :: t => hasSubstr t needle

/-- `hits = sum(1 for kw in query_keywords if kw in content_lower)`. -/
def countHits (keywords : List String) (content_lower : String) : Nat :=
  (keywords.filter (fun kw => hasSubstr content_lower.data kw.data)).length

/-- The auxiliary-corpus keyword score:
`score = hits * 0.3 if hits > 0 else 0.05` over the lower-cased content. -/
def corpusRawScore (keywords : List String) (content : String) : ℚ :=
  let hits := countHits keywords (lowerStr content)
  if hits > 0 then (hits : ℚ) * (3 / 10) else 5 / 100

/-- `chat/state.py` `RAGConfig` (fields the retrieval nodes read). -/
structure RAGConfig where
  enabled : Bool
  max_memories : Nat
  time_decay_factor : ℚ
  min_relevance_score : ℚ
  min_similarity : ℚ
deriving DecidableEq

/-- The `RAGConfig` defaults from `chat/state.py`. -/
def defaultRAGConfig : RAGConfig :=
  ⟨true, 5, 1 / 10, 35 / 100, 1 / 2⟩

/-- A row of the vector-search SQL in `retrieve_memory`:
`id, content, happened_at, source_type, sentiment_score, similarity,
days_ago` (the last two nullable, read as `row.similarity or 0.0` and
`row.days_ago or 0.0`). -/
structure VectorRow where
  id : Nat
  content : Option String
  happened_at : ℚ
  source_type : String
  sentiment_score : Int
  similarity : Option ℚ
  days_ago : Option ℚ
deriving DecidableEq

/-- The per-item dict appended to `scored_memories`. -/
structure MemDict where
  id : Option Nat
  content : Option String
  happened_at : ℚ
  source_type : String
  sentiment_score : Int
deriving DecidableEq

/-- `chat/state.py` `RetrievedMemory`. -/
structure RetrievedMemory where
  id : Option Nat
  content : String
  happened_at : ℚ
  source_type : String
  sentiment_score : Int
  relevance_score : ℚ
deriving DecidableEq

/-- The spec's relevance formula, written from the spec's words:
`final_score = similarity × 0.8 + time_factor × 0.2` with
`time_factor = 1 / (1 + days_ago × time_decay_factor)`. -/
def finalScore (cfg : RAGConfig) (similarity days_ago : ℚ) : ℚ :=
  similarity * (8 / 10) + (1 / (1 + days_ago * cfg.time_decay_factor)) * (2 / 10)

/-- The per-row body of the primary scoring loop in `retrieve_memory`
(lines 201-225 of `chat/nodes.py`): similarity floor, time decay,
relevance threshold. -/
def scoreVectorRow (cfg : RAGConfig) (row : VectorRow) :
    Option (MemDict × ℚ) :=
  let similarity := row.similarity.getD 0
  let days_ago := row.days_ago.getD 0
  if similarity < cfg.min_similarity then none
  else
    let time_factor : ℚ := 1 / (1 + days_ago * cfg.time_decay_factor)
    let final_score := similarity * (8 / 10) + time_factor * (2 / 10)
    if cfg.min_relevance_score ≤ final_score then
      some (⟨some row.id, row.content, row.happened_at, row.source_type,
        row.sentiment_score⟩, final_score)
    else none

/-- The per-entry body of the custom-corpus loop in `retrieve_memory`
(lines 230-251): keyword score, relevance threshold; corpus items carry
`id = None`, `happened_at = now`, `source_type = "corpus"`,
`sentiment_score = 0`.  A corpus entry is its `content` string
(`corpus_item.get("content", "")`). -/
def scoreCorpusItem (cfg : RAGConfig) (keywords : List String) (now : ℚ)
    (content : String) : Option (MemDict × ℚ) :=
  if content == "" then none
  else
    let score := corpusRawScore keywords content
    if cfg.min_relevance_score ≤ score then
      some (⟨none, some content, now, "corpus", 0⟩, score)
    else none

/-- The `scored_memories` candidate list built by `retrieve_memory`
before sorting and truncation: vector-path items followed by
corpus-path items (the corpus loop runs under `if custom_corpus:`). -/
def retrieveCandidates (cfg : RAGConfig) (now : ℚ) (user_message : String)
    (rows : List VectorRow) (corpus : List String) :
    List (MemDict × ℚ) :=
  rows.filterMap (scoreVectorRow cfg) ++
    (if corpus.isEmpty then []
     else corpus.filterMap (scoreCorpusItem cfg (queryKeywords user_message) now))

/-- Final packaging of a scored item as a `RetrievedMemory`
(`content = mem["content"] or ""`). -/
def packMemory (p : MemDict × ℚ) : RetrievedMemory :=
  ⟨p.1.id, p.1.content.getD "", p.1.happened_at, p.1.source_type,
    p.1.sentiment_score, p.2⟩

/-- `chat/nodes.py` `retrieve_memory`, primary (vector) path, given the
rows the vector index returned: score, sort by score descending, take
`max_memories`.  When RAG is disabled the node returns no memories. -/
def retrieve_memory (cfg : RAGConfig) (now : ℚ) (user_message : String)
    (rows : List VectorRow) (corpus : List String) : List RetrievedMemory :=
  if cfg.enabled then
    ((sortDescBy (fun p => p.2)
        (retrieveCandidates cfg now user_message rows corpus)).take
      cfg.max_memories).map packMemory
  else []

/-- The fallback per-memory score (lines 315-321):
`score = hits * time_factor if hits > 0 else time_factor * 0.1`, with
`time_factor = 1 / (1 + days_ago * time_decay_factor)` and `days_ago`
the whole-day difference `(now - happened_at).days`. -/
def fallbackRawScore (time_decay_factor : ℚ) (hits : Nat) (days_ago : ℤ) : ℚ :=
  let time_factor : ℚ := 1 / (1 + (days_ago : ℚ) * time_decay_factor)
  if hits > 0 then (hits : ℚ) * time_factor else time_factor * (1 / 10)

/-- The fallback per-memory score as the spec words it: the
auxiliary-corpus scoring shape (`0.3 × hit_count` when any hit, else the
flat `0.05` baseline) multiplied by the same time-decay factor. -/
def specFallbackScore (time_decay_factor : ℚ) (hits : Nat) (days_ago : ℚ) : ℚ :=
  let time_factor : ℚ := 1 / (1 + days_ago * time_decay_factor)
  (if hits > 0 then (hits : ℚ) * (3 / 10) else 5 / 100) * time_factor

/-- The stored-memory query of `_retrieve_memory_fallback`:
owner's rows with non-null content and `status = 'active'`, ordered by
`happened_at` descending, `LIMIT max_memories * 3`. -/
def fallbackQuery (cfg : RAGConfig) (store : List MemoryRecord) (tid : Nat) :
    List MemoryRecord :=
  (sortDescBy (fun r => r.happened_at)
    (store.filter (fun r =>
      r.target_id == tid && r.content.isSome && r.status == "active"))).take
    (cfg.max_memories * 3)

/-- The per-memory body of the fallback scoring loop (lines 310-335):
skip falsy content, keyword hits over lower-cased content, whole-day
time decay, relevance threshold. -/
def fallbackScoreMemory (cfg : RAGConfig) (now : ℚ) (keywords : List String)
    (r : MemoryRecord) : Option (MemDict × ℚ) :=
  match r.content with
  | none => none
  | some c =>
    if c == "" then none
    else
      let content_lower := lowerStr c
      let hits := countHits keywords content_lower
      let days_ago : ℤ := Rat.floor (now - r.happened_at)
      let score := fallbackRawScore cfg.time_decay_factor hits days_ago
      if cfg.min_relevance_score ≤ score then
        some (⟨some r.id, some c, r.happened_at, r.source_type,
          r.sentiment_score⟩, score)
      else none

/-- `chat/nodes.py` `_retrieve_memory_fallback`: keyword scoring of
stored memories plus the corpus loop, sort by score descending, take
`max_memories`. -/
def retrieve_memory_fallback (cfg : RAGConfig) (now : ℚ)
    (user_message : String) (store : List MemoryRecord) (tid : Nat)
    (corpus : List String) : List RetrievedMemory :=
  let keywords := queryKeywords user_message
  ((sortDescBy (fun p => p.2)
      ((fallbackQuery cfg store tid).filterMap
          (fallbackScoreMemory cfg now keywords) ++
        corpus.filterMap (scoreCorpusItem cfg keywords now))).take
    cfg.max_memories).map packMemory

/-- Outcome of the router's classifier call in `route_question`:
either the call / JSON parse raised, or it produced a parsed object whose
`route` field is the given optional string (`none` when the field is
missing, in which case `.get("route", "mentor_chat")` supplies the
default). -/
inductive ClassifierOutcome where
  | failed : ClassifierOutcome
  | parsed : Option String → ClassifierOutcome
deriving DecidableEq

/-- `chat/nodes.py` `route_question`: returns the `route_decision`. -/
def route_question (outcome : ClassifierOutcome) : String :=
  match outcome with
  | .failed => "mentor_chat"
  | .parsed route? =>
    let route := route?.getD "mentor_chat"
    if route = "mentor_chat" ∨ route = "memory_rag" then route
    else "mentor_chat"

/-- `chat/nodes.py` `should_retrieve`: the conditional edge deciding
whether retrieval runs ("retrieve") or is skipped ("generate"). -/
def should_retrieve (route_decision : String) : String :=
  if route_decision == "memory_rag" then "retrieve" else "generate"

/-! ### Helper lemmas -/

theorem zeroPrefix10_of_all_zero (emb : Embedding) (h : ∀ v ∈ emb, v = 0) :
    zeroPrefix10 emb = true := by
  unfold zeroPrefix10
  rw [List.all_eq_true]
  intro v hv
  have hv0 := h v (List.mem_of_mem_take hv)
  simp [hv0]

/-- Unfolding of `check_duplicate_memory` past the short-circuits when the
content is non-blank and the embedding passes the zero-vector test. -/
theorem check_duplicate_eval (embedOf : String → Embedding)
    (sim : Embedding → Embedding → ℚ) (store : List MemoryRecord)
    (tid : Nat) (content : String) (embedding? : Option Embedding) (θ : ℚ)
    (hb : isBlank content = false)
    (hz : zeroPrefix10 (embedding?.getD (embedOf content)) = false) :
    check_duplicate_memory true embedOf sim store tid content embedding? θ =
      match nearestActiveMemory sim store tid (embedding?.getD (embedOf content)) with
      | none => ⟨false, none, none, true⟩
      | some r =>
        if θ ≤ sim (r.embedding.getD []) (embedding?.getD (embedOf content)) then
          ⟨true, some r.id,
            some (sim (r.embedding.getD []) (embedding?.getD (embedOf content))), true⟩
        else
          ⟨false, none,
            some (sim (r.embedding.getD []) (embedding?.getD (embedOf content))), true⟩ := by
  simp [check_duplicate_memory, hb, hz]

/-! ### Concrete instances used by the witnesses -/

/-- An embedding provider that is never consulted by the witnesses
(they always pass an explicit embedding). -/
def e0 : String → Embedding := fun _ => [1]

/-- A vector index whose similarity is constantly `0.95`. -/
def sim0 : Embedding → Embedding → ℚ := fun _ _ => 95 / 100

/-- A vector index whose similarity is constantly `0.5`. -/
def simLow : Embedding → Embedding → ℚ := fun _ _ => 1 / 2

/-- A vector index whose similarity is constantly `1` (e.g. the stored and
query embeddings are identical). -/
def simOne : Embedding → Embedding → ℚ := fun _ _ => 1

/-- One stored active memory. -/
def rec1 : MemoryRecord := ⟨1, 0, some "likes coffee", some [1], 0, "chat", 0, "active"⟩

/-- A non-zero embedding whose first 10 components are all zero. -/
def embTail : Embedding := List.replicate 10 (0 : ℚ) ++ [1]

/-- An active record carrying `embTail` as its embedding. -/
def recTail : MemoryRecord := ⟨1, 0, some "m", some embTail, 0, "chat", 0, "active"⟩

/-! ### Claims -/

/-- C4.  Zero-vector / empty-content short-circuit: if the new content is
empty or whitespace-only, or its embedding is a zero-vector, then
`check_duplicate_memory` returns not-duplicate and
`detect_conflicting_memory` returns no-conflict, and neither performs the
similarity search (nor, for conflict detection, any adjudication). -/
theorem short_circuit_no_search (searchOk : Bool)
    (oracle : String → String → Bool) (embedOf : String → Embedding)
    (sim : Embedding → Embedding → ℚ) (store : List MemoryRecord)
    (tid : Nat) (content : String) (embedding? : Option Embedding)
    (dedupTh conflictTh : ℚ)
    (h : isBlank content = true ∨ ∀ v ∈ embedding?.getD (embedOf content), v = 0) :
    check_duplicate_memory searchOk embedOf sim store tid content embedding? dedupTh
        = ⟨false, none, none, false⟩ ∧
      detect_conflicting_memory searchOk oracle embedOf sim store tid content
          embedding? conflictTh
        = ⟨false, none, none, none, false, []⟩ := by
  rcases h with h | h
  · constructor <;> simp [check_duplicate_memory, detect_conflicting_memory, h]
  · have hz : zeroPrefix10 (embedding?.getD (embedOf content)) = true :=
      zeroPrefix10_of_all_zero _ h
    by_cases hb : isBlank content
    · constructor <;> simp [check_duplicate_memory, detect_conflicting_memory, hb]
    · constructor <;> simp [check_duplicate_memory, detect_conflicting_memory, hb, hz]

/-- Witness for C4 at content `""`. -/
theorem short_circuit_no_search_witness :
    check_duplicate_memory true e0 sim0 [rec1] 0 "" none SIMILARITY_THRESHOLD
        = ⟨false, none, none, false⟩ ∧
      detect_conflicting_memory true (fun _ _ => true) e0 sim0 [rec1] 0 "" none
          CONFLICT_SIMILARITY_THRESHOLD
        = ⟨false, none, none, none, false, []⟩ :=
  short_circuit_no_search true (fun _ _ => true) e0 sim0 [rec1] 0 "" none
    SIMILARITY_THRESHOLD CONFLICT_SIMILARITY_THRESHOLD (Or.inl (by decide))

/-- C10.  The zero-vector sentinel is a 10-component-prefix test: with
non-blank content, an embedding whose first 10 components are all zero
short-circuits both services to not-duplicate / no-conflict without the
similarity search, and any embedding with a non-zero among its first 10
components reaches the similarity search in both services. -/
theorem zero_prefix_sentinel (searchOk : Bool)
    (oracle : String → String → Bool) (embedOf : String → Embedding)
    (sim : Embedding → Embedding → ℚ) (store : List MemoryRecord)
    (tid : Nat) (content : String) (embedding? : Option Embedding)
    (dedupTh conflictTh : ℚ) (hb : isBlank content = false) :
    (zeroPrefix10 (embedding?.getD (embedOf content)) = true →
      check_duplicate_memory searchOk embedOf sim store tid content embedding? dedupTh
          = ⟨false, none, none, false⟩ ∧
        detect_conflicting_memory searchOk oracle embedOf sim store tid content
            embedding? conflictTh
          = ⟨false, none, none, none, false, []⟩) ∧
    (zeroPrefix10 (embedding?.getD (embedOf content)) = false →
      (check_duplicate_memory searchOk embedOf sim store tid content embedding?
          dedupTh).searched = true ∧
        (detect_conflicting_memory searchOk oracle embedOf sim store tid content
            embedding? conflictTh).searched = true) := by
  constructor
  · intro hz
    constructor <;> simp [check_duplicate_memory, detect_conflicting_memory, hb, hz]
  · intro hz
    constructor
    · simp only [check_duplicate_memory, hb, hz, Bool.false_eq_true, if_false]
      cases searchOk
      · rfl
      · simp only [if_true]
        split
        · rfl
        · split <;> rfl
    · simp only [detect_conflicting_memory, hb, hz, Bool.false_eq_true, if_false]
      cases searchOk
      · rfl
      · simp only [if_true]
        split <;> rfl

/-- Witness for C10 on the embedding `[0,…,0,1]` (ten zeros then a one):
later components are non-zero, yet both services short-circuit. -/
theorem zero_prefix_sentinel_witness :
    check_duplicate_memory true e0 simOne [recTail] 0 "m" (some embTail)
        SIMILARITY_THRESHOLD = ⟨false, none, none, false⟩ ∧
      detect_conflicting_memory true (fun _ _ => true) e0 simOne [recTail] 0 "m"
          (some embTail) CONFLICT_SIMILARITY_THRESHOLD
        = ⟨false, none, none, none, false, []⟩ :=
  (zero_prefix_sentinel true (fun _ _ => true) e0 simOne [recTail] 0 "m"
    (some embTail) SIMILARITY_THRESHOLD CONFLICT_SIMILARITY_THRESHOLD
    (by decide)).1 (by decide)

/-- C9.  Router conservative default: if the classifier call errors, its
output is malformed (no `route` field), or the returned category is not
one of the two fixed categories, `route_question` decides `mentor_chat`,
and the conditional edge sends the flow to generation (no retrieval). -/
theorem router_default (outcome : ClassifierOutcome)
    (h : outcome = .failed ∨ outcome = .parsed none ∨
      ∃ c, outcome = .parsed (some c) ∧ c ≠ "mentor_chat" ∧ c ≠ "memory_rag") :
    route_question outcome = "mentor_chat" ∧
      should_retrieve (route_question outcome) = "generate" := by
  have hr : route_question outcome = "mentor_chat" := by
    rcases h with rfl | rfl | ⟨c, rfl, h1, h2⟩
    · rfl
    · decide
    · simp [route_question, h1, h2]
  refine ⟨hr, ?_⟩
  rw [hr]
  decide

/-- Witness for C9 at an invalid category. -/
theorem router_default_witness :
    route_question (.parsed (some "garbage")) = "mentor_chat" ∧
      should_retrieve (route_question (.parsed (some "garbage"))) = "generate" :=
  router_default (.parsed (some "garbage"))
    (Or.inr (Or.inr ⟨"garbage", rfl, by decide, by decide⟩))

/-- Counterexample to C2 as stated: the embedding `[0,…,0,1]` is not a
zero-vector, the nearest active record exists and its similarity (1) is
at least 0.92, yet `check_duplicate_memory` reports not-duplicate,
because the code inspects only the first 10 components. -/
theorem dedup_threshold_cex :
    (∃ v ∈ embTail, v ≠ 0) ∧
      nearestActiveMemory simOne [recTail] 0 embTail = some recTail ∧
      SIMILARITY_THRESHOLD ≤ simOne (recTail.embedding.getD []) embTail ∧
      (check_duplicate_memory true e0 simOne [recTail] 0 "m" (some embTail)
          SIMILARITY_THRESHOLD).is_duplicate = false := by
  refine ⟨⟨1, by decide, by decide⟩, by decide, ?_, ?_⟩
  · norm_num [simOne, SIMILARITY_THRESHOLD]
  · simp [check_duplicate_memory, show zeroPrefix10 embTail = true from by decide]

/-- C2 amended.  Deduplication threshold: for non-blank content whose
embedding has a non-zero value among its first 10 components, when the
nearest active record for the owner exists the result is duplicate iff
that record's similarity is at least 0.92; when no active record exists
the result is not-duplicate. -/
theorem dedup_threshold (embedOf : String → Embedding)
    (sim : Embedding → Embedding → ℚ) (store : List MemoryRecord)
    (tid : Nat) (content : String) (embedding? : Option Embedding)
    (hb : isBlank content = false)
    (hz : zeroPrefix10 (embedding?.getD (embedOf content)) = false) :
    (∀ r, nearestActiveMemory sim store tid (embedding?.getD (embedOf content)) = some r →
      ((check_duplicate_memory true embedOf sim store tid content embedding?
          SIMILARITY_THRESHOLD).is_duplicate = true ↔
        SIMILARITY_THRESHOLD ≤ sim (r.embedding.getD []) (embedding?.getD (embedOf content)))) ∧
    (nearestActiveMemory sim store tid (embedding?.getD (embedOf content)) = none →
      (check_duplicate_memory true embedOf sim store tid content embedding?
          SIMILARITY_THRESHOLD).is_duplicate = false) := by
  rw [check_duplicate_eval embedOf sim store tid content embedding? SIMILARITY_THRESHOLD hb hz]
  constructor
  · intro r hr
    rw [hr]
    by_cases hθ : SIMILARITY_THRESHOLD ≤ sim (r.embedding.getD []) (embedding?.getD (embedOf content))
    · simp [hθ]
    · simp [hθ]
  · intro hr
    rw [hr]

/-- Witness for C2 amended: similarity 0.95 against the nearest record is
reported as duplicate. -/
theorem dedup_threshold_witness :
    (check_duplicate_memory true e0 sim0 [rec1] 0 "likes coffee" (some [1])
        SIMILARITY_THRESHOLD).is_duplicate = true := by
  refine ((dedup_threshold e0 sim0 [rec1] 0 "likes coffee" (some [1])
    (by decide) (by decide)).1 rec1 (by decide)).mpr ?_
  norm_num [sim0, SIMILARITY_THRESHOLD]

/-- Counterexample to C3 as stated: a nearest active record is found
(similarity 0.5, below the threshold), the similarity is returned, but
the matched record's id is not — the id field is `None` in the
non-duplicate branch. -/
theorem dedup_observability_cex :
    nearestActiveMemory simLow [rec1] 0 [1] = some rec1 ∧
      (check_duplicate_memory true e0 simLow [rec1] 0 "likes coffee" (some [1])
          SIMILARITY_THRESHOLD).similarity = some (1 / 2) ∧
      (check_duplicate_memory true e0 simLow [rec1] 0 "likes coffee" (some [1])
          SIMILARITY_THRESHOLD).memory_id = none := by
  refine ⟨by decide, ?_, ?_⟩ <;>
  · rw [check_duplicate_eval e0 simLow [rec1] 0 "likes coffee" (some [1])
      SIMILARITY_THRESHOLD (by decide) (by decide), show nearestActiveMemory simLow [rec1] 0
      ((some [1]).getD (e0 "likes coffee")) = some rec1 from by decide]
    norm_num [simLow, SIMILARITY_THRESHOLD]

/-- C3 amended.  Dedup observability: when a nearest active record is
found, the returned triple always contains the similarity score, and it
contains the matched record's id exactly when the result is duplicate
(the id field is `None` in the non-duplicate branch). -/
theorem dedup_observability (embedOf : String → Embedding)
    (sim : Embedding → Embedding → ℚ) (store : List MemoryRecord)
    (tid : Nat) (content : String) (embedding? : Option Embedding) (θ : ℚ)
    (hb : isBlank content = false)
    (hz : zeroPrefix10 (embedding?.getD (embedOf content)) = false)
    (r : MemoryRecord)
    (hr : nearestActiveMemory sim store tid (embedding?.getD (embedOf content)) = some r) :
    (check_duplicate_memory true embedOf sim store tid content embedding? θ).similarity
        = some (sim (r.embedding.getD []) (embedding?.getD (embedOf content))) ∧
      ((check_duplicate_memory true embedOf sim store tid content embedding? θ).is_duplicate
          = true →
        (check_duplicate_memory true embedOf sim store tid content embedding? θ).memory_id
          = some r.id) ∧
      ((check_duplicate_memory true embedOf sim store tid content embedding? θ).is_duplicate
          = false →
        (check_duplicate_memory true embedOf sim store tid content embedding? θ).memory_id
          = none) := by
  rw [check_duplicate_eval embedOf sim store tid content embedding? θ hb hz, hr]
  by_cases hθ : θ ≤ sim (r.embedding.getD []) (embedding?.getD (embedOf content))
  · simp [hθ]
  · simp [hθ]

/-- Witness for C3 amended at a non-duplicate match (similarity 0.5):
the score is returned and the id is `None`. -/
theorem dedup_observability_witness :
    (check_duplicate_memory true e0 simLow [rec1] 0 "likes coffee" (some [1])
        SIMILARITY_THRESHOLD).similarity = some (simLow (rec1.embedding.getD []) [1]) := by
  exact (dedup_observability e0 simLow [rec1] 0 "likes coffee" (some [1])
    SIMILARITY_THRESHOLD (by decide) (by decide) rec1 (by decide)).1

/-! ### Conflict-resolver lemmas -/

theorem adjudicateLoop_all_no (oracle : String → String → Bool) (nc : String)
    (l : List Candidate) (h : ∀ c ∈ l, oracle nc c.content = false) :
    adjudicateLoop oracle nc l = (none, l) := by
  induction l with
  | nil => rfl
  | cons c t ih =>
    have hc := h c (List.mem_cons_self c t)
    simp [adjudicateLoop, hc, ih (fun x hx => h x (List.mem_cons_of_mem c hx))]

theorem adjudicateLoop_first (oracle : String → String → Bool) (nc : String)
    (pre : List Candidate) (c : Candidate) (post : List Candidate)
    (hpre : ∀ x ∈ pre, oracle nc x.content = false)
    (hc : oracle nc c.content = true) :
    adjudicateLoop oracle nc (pre ++ c :: post) = (some c, pre ++ [c]) := by
  induction pre with
  | nil => simp [adjudicateLoop, hc]
  | cons a t ih =>
    have ha := hpre a (List.mem_cons_self a t)
    simp [adjudicateLoop, ha, ih (fun x hx => hpre x (List.mem_cons_of_mem a hx))]

theorem conflictCandidates_mem (sim : Embedding → Embedding → ℚ)
    (store : List MemoryRecord) (tid : Nat) (qemb : Embedding) (θ : ℚ)
    (c : Candidate) (hc : c ∈ conflictCandidates sim store tid qemb θ) :
    ∃ r ∈ store, r.target_id = tid ∧ r.status = "active" ∧ r.id = c.id ∧
      r.content = some c.content ∧
      c.similarity = sim (r.embedding.getD []) qemb ∧ θ ≤ c.similarity := by
  unfold conflictCandidates at hc
  rcases List.mem_map.mp hc with ⟨r, hr, rfl⟩
  have hr' := List.mem_of_mem_take hr
  rw [mem_sortDescBy] at hr'
  rcases List.mem_filter.mp hr' with ⟨hrs, hpred⟩
  rw [Bool.and_eq_true] at hpred
  obtain ⟨helig, hθ⟩ := hpred
  unfold activeEligible at helig
  rw [Bool.and_eq_true, Bool.and_eq_true, Bool.and_eq_true] at helig
  obtain ⟨⟨⟨hid, hemb⟩, hct⟩, hst⟩ := helig
  rcases Option.isSome_iff_exists.mp hct with ⟨x, hx⟩
  refine ⟨r, hrs, by simpa using hid, by simpa using hst, rfl, ?_, rfl,
    of_decide_eq_true hθ⟩
  simp [hx]

theorem conflictCandidates_sorted (sim : Embedding → Embedding → ℚ)
    (store : List MemoryRecord) (tid : Nat) (qemb : Embedding) (θ : ℚ) :
    (conflictCandidates sim store tid qemb θ).Pairwise
      (fun a b => b.similarity ≤ a.similarity) := by
  unfold conflictCandidates
  rw [List.pairwise_map]
  exact (pairwise_sortDescBy _ _).sublist (List.take_sublist 3 _)

/-- Unfolding of `detect_conflicting_memory` past the short-circuits. -/
theorem detect_eval (oracle : String → String → Bool)
    (embedOf : String → Embedding) (sim : Embedding → Embedding → ℚ)
    (store : List MemoryRecord) (tid : Nat) (nc : String)
    (emb? : Option Embedding) (θ : ℚ)
    (hb : isBlank nc = false)
    (hz : zeroPrefix10 (emb?.getD (embedOf nc)) = false) :
    detect_conflicting_memory true oracle embedOf sim store tid nc emb? θ =
      (match (adjudicateLoop oracle nc
          (conflictCandidates sim store tid (emb?.getD (embedOf nc)) θ)).1 with
        | some c => ⟨true, some c.id, some c.content, some c.similarity, true,
            (adjudicateLoop oracle nc
              (conflictCandidates sim store tid (emb?.getD (embedOf nc)) θ)).2⟩
        | none => ⟨false, none, none, none, true,
            (adjudicateLoop oracle nc
              (conflictCandidates sim store tid (emb?.getD (embedOf nc)) θ)).2⟩) := by
  simp [detect_conflicting_memory, hb, hz]

/-- When `detect_conflicting_memory` reports a conflict, the matched id,
content and similarity all come from one candidate. -/
theorem detect_shape (searchOk : Bool) (oracle : String → String → Bool)
    (embedOf : String → Embedding) (sim : Embedding → Embedding → ℚ)
    (store : List MemoryRecord) (tid : Nat) (nc : String)
    (emb? : Option Embedding) (θ : ℚ)
    (h : (detect_conflicting_memory searchOk oracle embedOf sim store tid nc
        emb? θ).is_conflict = true) :
    ∃ c : Candidate,
      (detect_conflicting_memory searchOk oracle embedOf sim store tid nc
          emb? θ).memory_id = some c.id ∧
      (detect_conflicting_memory searchOk oracle embedOf sim store tid nc
          emb? θ).content = some c.content ∧
      (detect_conflicting_memory searchOk oracle embedOf sim store tid nc
          emb? θ).similarity = some c.similarity := by
  by_cases hb : isBlank nc
  · simp [detect_conflicting_memory, hb] at h
  · by_cases hz : zeroPrefix10 (emb?.getD (embedOf nc))
    · simp [detect_conflicting_memory, hb, hz] at h
    · cases searchOk with
      | false => simp [detect_conflicting_memory, hb, hz] at h
      | true =>
        rcases hp : (adjudicateLoop oracle nc
            (conflictCandidates sim store tid (emb?.getD (embedOf nc)) θ)).1 with _ | c
        · simp [detect_conflicting_memory, hb, hz, hp] at h
        · exact ⟨c, by simp [detect_conflicting_memory, hb, hz, hp]⟩

/-- C5.  Conflict candidate selection and first-match order: at most 3
candidates are considered, each an active record of the owner with
similarity at least 0.75, in descending similarity order; the adjudicator
is queried in that order and the first candidate answered "yes" is
returned without adjudicating any later candidate; if none answers "yes"
no conflict is reported (and every candidate was adjudicated). -/
theorem conflict_first_match (oracle : String → String → Bool)
    (embedOf : String → Embedding) (sim : Embedding → Embedding → ℚ)
    (store : List MemoryRecord) (tid : Nat) (nc : String)
    (emb? : Option Embedding)
    (hb : isBlank nc = false)
    (hz : zeroPrefix10 (emb?.getD (embedOf nc)) = false) :
    (conflictCandidates sim store tid (emb?.getD (embedOf nc))
        CONFLICT_SIMILARITY_THRESHOLD).length ≤ 3 ∧
    (∀ c ∈ conflictCandidates sim store tid (emb?.getD (embedOf nc))
        CONFLICT_SIMILARITY_THRESHOLD,
      ∃ r ∈ store, r.target_id = tid ∧ r.status = "active" ∧ r.id = c.id ∧
        r.content = some c.content ∧
        c.similarity = sim (r.embedding.getD []) (emb?.getD (embedOf nc)) ∧
        CONFLICT_SIMILARITY_THRESHOLD ≤ c.similarity) ∧
    (conflictCandidates sim store tid (emb?.getD (embedOf nc))
        CONFLICT_SIMILARITY_THRESHOLD).Pairwise
      (fun a b => b.similarity ≤ a.similarity) ∧
    (∀ pre c post,
      conflictCandidates sim store tid (emb?.getD (embedOf nc))
          CONFLICT_SIMILARITY_THRESHOLD = pre ++ c :: post →
      (∀ x ∈ pre, oracle nc x.content = false) → oracle nc c.content = true →
      detect_conflicting_memory true oracle embedOf sim store tid nc emb?
          CONFLICT_SIMILARITY_THRESHOLD
        = ⟨true, some c.id, some c.content, some c.similarity, true, pre ++ [c]⟩) ∧
    ((∀ c ∈ conflictCandidates sim store tid (emb?.getD (embedOf nc))
          CONFLICT_SIMILARITY_THRESHOLD, oracle nc c.content = false) →
      detect_conflicting_memory true oracle embedOf sim store tid nc emb?
          CONFLICT_SIMILARITY_THRESHOLD
        = ⟨false, none, none, none, true,
            conflictCandidates sim store tid (emb?.getD (embedOf nc))
              CONFLICT_SIMILARITY_THRESHOLD⟩) := by
  refine ⟨?_, ?_, conflictCandidates_sorted sim store tid _ _, ?_, ?_⟩
  · unfold conflictCandidates
    rw [List.length_map]
    exact List.length_take_le 3 _
  · exact fun c hc => conflictCandidates_mem sim store tid _ _ c hc
  · intro pre c post hcands hpre hc
    rw [detect_eval oracle embedOf sim store tid nc emb? CONFLICT_SIMILARITY_THRESHOLD hb hz,
      hcands, adjudicateLoop_first oracle nc pre c post hpre hc]
  · intro hno
    rw [detect_eval oracle embedOf sim store tid nc emb? CONFLICT_SIMILARITY_THRESHOLD hb hz,
      adjudicateLoop_all_no oracle nc _ hno]

/-- A vector index whose similarity is the head of the stored embedding. -/
def simHead : Embedding → Embedding → ℚ := fun e _ => e.headD 0

def recA : MemoryRecord := ⟨1, 0, some "A", some [9 / 10], 0, "chat", 0, "active"⟩

def recB : MemoryRecord := ⟨2, 0, some "B", some [4 / 5], 0, "chat", 0, "active"⟩

def recC : MemoryRecord := ⟨3, 0, some "C", some [78 / 100], 0, "chat", 0, "active"⟩

/-- A store holding the three records above, deliberately unsorted. -/
def storeABC : List MemoryRecord := [recB, recC, recA]

/-- An adjudicator that answers "yes" exactly for existing content "B". -/
def oracleB : String → String → Bool := fun _ ex => ex == "B"

/-- Witness for C5: with three candidates (similarities 0.9, 0.8, 0.78 in
rank order) and an adjudicator saying "yes" only on the second, detection
returns the second candidate and never adjudicates the third. -/
theorem conflict_first_match_witness :
    detect_conflicting_memory true oracleB e0 simHead storeABC 0 "new" (some [1])
        CONFLICT_SIMILARITY_THRESHOLD
      = ⟨true, some 2, some "B", some (4 / 5), true,
          [⟨1, "A", 9 / 10⟩, ⟨2, "B", 4 / 5⟩]⟩ := by
  have hcands : conflictCandidates simHead storeABC 0 ((some [1]).getD (e0 "new"))
      CONFLICT_SIMILARITY_THRESHOLD
      = [⟨1, "A", 9 / 10⟩, ⟨2, "B", 4 / 5⟩, ⟨3, "C", 78 / 100⟩] := by
    norm_num [conflictCandidates, sortDescBy, insertDescBy, activeEligible,
      simHead, recA, recB, recC, storeABC, CONFLICT_SIMILARITY_THRESHOLD, e0]
  exact (conflict_first_match oracleB e0 simHead storeABC 0 "new" (some [1])
    (by decide) (by decide)).2.2.2.1 [⟨1, "A", 9 / 10⟩] ⟨2, "B", 4 / 5⟩
    [⟨3, "C", 78 / 100⟩] hcands (by decide) (by decide)

/-- C1.  Conflict supersession: with non-empty new content, when detection
finds a conflicting record and the status mutation succeeds,
`handle_memory_conflict` flips exactly that record's status to
`outdated` and returns the replaced id, content and similarity; it
returns `None` when no candidate conflicts or when the mutation fails,
leaving the store unchanged in those cases. -/
theorem conflict_supersession (searchOk markOk : Bool)
    (oracle : String → String → Bool) (embedOf : String → Embedding)
    (sim : Embedding → Embedding → ℚ) (store : List MemoryRecord)
    (tid : Nat) (nc : String) (emb? : Option Embedding)
    (hb : isBlank nc = false) :
    ((detect_conflicting_memory searchOk oracle embedOf sim store tid nc emb?
        CONFLICT_SIMILARITY_THRESHOLD).is_conflict = true → markOk = true →
      ∃ mid,
        (detect_conflicting_memory searchOk oracle embedOf sim store tid nc emb?
            CONFLICT_SIMILARITY_THRESHOLD).memory_id = some mid ∧
        handle_memory_conflict searchOk markOk oracle embedOf sim store tid nc emb?
          = (some ⟨mid,
              (detect_conflicting_memory searchOk oracle embedOf sim store tid nc
                  emb? CONFLICT_SIMILARITY_THRESHOLD).content,
              (detect_conflicting_memory searchOk oracle embedOf sim store tid nc
                  emb? CONFLICT_SIMILARITY_THRESHOLD).similarity⟩,
             store.map (fun r =>
               if r.id == mid then { r with status := "outdated" } else r)) ∧
        ∀ r ∈ store, r.id = mid →
          { r with status := "outdated" }
            ∈ (handle_memory_conflict searchOk markOk oracle embedOf sim store tid
                nc emb?).2) ∧
    ((detect_conflicting_memory searchOk oracle embedOf sim store tid nc emb?
        CONFLICT_SIMILARITY_THRESHOLD).is_conflict = false →
      handle_memory_conflict searchOk markOk oracle embedOf sim store tid nc emb?
        = (none, store)) ∧
    (markOk = false →
      (handle_memory_conflict searchOk markOk oracle embedOf sim store tid nc
          emb?).1 = none ∧
        (handle_memory_conflict searchOk markOk oracle embedOf sim store tid nc
            emb?).2 = store) := by
  refine ⟨?_, ?_, ?_⟩
  · intro h hmk
    rcases detect_shape searchOk oracle embedOf sim store tid nc emb?
      CONFLICT_SIMILARITY_THRESHOLD h with ⟨c, hid, hct, hs⟩
    refine ⟨c.id, hid, ?_, ?_⟩
    · simp [handle_memory_conflict, h, hid, hct, hs, mark_memory_as_outdated, hmk]
    · intro r hr hrid
      have : (if r.id == c.id then { r with status := "outdated" } else r)
          ∈ store.map (fun r =>
            if r.id == c.id then { r with status := "outdated" } else r) :=
        List.mem_map_of_mem _ hr
      simp only [handle_memory_conflict, h, hid, mark_memory_as_outdated, hmk,
        if_true]
      simpa [hrid] using this
  · intro h
    simp [handle_memory_conflict, h]
  · intro hmk
    cases h1 : (detect_conflicting_memory searchOk oracle embedOf sim store tid nc
        emb? CONFLICT_SIMILARITY_THRESHOLD).is_conflict
    · simp [handle_memory_conflict, h1]
    · cases h2 : (detect_conflicting_memory searchOk oracle embedOf sim store tid nc
          emb? CONFLICT_SIMILARITY_THRESHOLD).memory_id
      · simp [handle_memory_conflict, h1, h2]
      · simp [handle_memory_conflict, h1, h2, mark_memory_as_outdated, hmk]

/-- An adjudicator that always answers "yes". -/
def yesOracle : String → String → Bool := fun _ _ => true

/-- Witness for C1: a confirmed conflict with a successful mutation
supersedes the matched record. -/
theorem conflict_supersession_witness :
    ∃ mid,
      (detect_conflicting_memory true yesOracle e0 sim0 [rec1] 0 "dislikes coffee"
          (some [1]) CONFLICT_SIMILARITY_THRESHOLD).memory_id = some mid ∧
      handle_memory_conflict true true yesOracle e0 sim0 [rec1] 0 "dislikes coffee"
          (some [1])
        = (some ⟨mid,
            (detect_conflicting_memory true yesOracle e0 sim0 [rec1] 0
                "dislikes coffee" (some [1]) CONFLICT_SIMILARITY_THRESHOLD).content,
            (detect_conflicting_memory true yesOracle e0 sim0 [rec1] 0
                "dislikes coffee" (some [1]) CONFLICT_SIMILARITY_THRESHOLD).similarity⟩,
           [rec1].map (fun r =>
             if r.id == mid then { r with status := "outdated" } else r)) ∧
      ∀ r ∈ [rec1], r.id = mid →
        { r with status := "outdated" }
          ∈ (handle_memory_conflict true true yesOracle e0 sim0 [rec1] 0
              "dislikes coffee" (some [1])).2 := by
  refine (conflict_supersession true true yesOracle e0 sim0 [rec1] 0
    "dislikes coffee" (some [1]) (by decide)).1 ?_ rfl
  have hcands : conflictCandidates sim0 [rec1] 0 ((some [1]).getD (e0 "dislikes coffee"))
      CONFLICT_SIMILARITY_THRESHOLD = [⟨1, "likes coffee", 95 / 100⟩] := by
    norm_num [conflictCandidates, sortDescBy, insertDescBy, activeEligible,
      sim0, rec1, CONFLICT_SIMILARITY_THRESHOLD, e0]
  rw [detect_eval yesOracle e0 sim0 [rec1] 0 "dislikes coffee" (some [1])
    CONFLICT_SIMILARITY_THRESHOLD (by decide) (by decide), hcands]
  rfl

/-! ### Relevance-ranker claims -/

/-- C6.  Relevance score with inclusive boundary: every vector-path row at
or above the similarity floor is scored by the spec formula
`similarity × 0.8 + time_factor × 0.2` and kept exactly when that score is
at least `min_relevance_score` (a row whose score equals the threshold is
kept and enters the candidate set). -/
theorem relevance_score_inclusive (cfg : RAGConfig) (now : ℚ) (msg : String)
    (rows : List VectorRow) (corpus : List String) (row : VectorRow)
    (hrow : row ∈ rows)
    (hsim : cfg.min_similarity ≤ row.similarity.getD 0) :
    (scoreVectorRow cfg row =
      if cfg.min_relevance_score ≤
          finalScore cfg (row.similarity.getD 0) (row.days_ago.getD 0)
      then some (⟨some row.id, row.content, row.happened_at, row.source_type,
          row.sentiment_score⟩,
        finalScore cfg (row.similarity.getD 0) (row.days_ago.getD 0))
      else none) ∧
    (cfg.min_relevance_score ≤
        finalScore cfg (row.similarity.getD 0) (row.days_ago.getD 0) →
      (⟨some row.id, row.content, row.happened_at, row.source_type,
          row.sentiment_score⟩,
        finalScore cfg (row.similarity.getD 0) (row.days_ago.getD 0))
        ∈ retrieveCandidates cfg now msg rows corpus) := by
  have hs : scoreVectorRow cfg row =
      if cfg.min_relevance_score ≤
          finalScore cfg (row.similarity.getD 0) (row.days_ago.getD 0)
      then some (⟨some row.id, row.content, row.happened_at, row.source_type,
          row.sentiment_score⟩,
        finalScore cfg (row.similarity.getD 0) (row.days_ago.getD 0))
      else none := by
    unfold scoreVectorRow finalScore
    rw [if_neg (not_lt.mpr hsim)]
  refine ⟨hs, fun h => ?_⟩
  unfold retrieveCandidates
  apply List.mem_append_left
  exact List.mem_filterMap.mpr ⟨row, hrow, by rw [hs, if_pos h]⟩

/-- A row at similarity 0.5 (the floor), zero days old. -/
def rowHalf : VectorRow := ⟨7, some "met at cafe", 0, "chat", 0, some (1 / 2), some 0⟩

/-- A configuration whose relevance threshold 0.6 equals `rowHalf`'s final
score exactly. -/
def cfgBoundary : RAGConfig := ⟨true, 5, 1 / 10, 6 / 10, 1 / 2⟩

/-- Witness for C6 at the boundary: final score exactly 0.6 against
threshold 0.6 is included. -/
theorem relevance_score_inclusive_witness :
    cfgBoundary.min_relevance_score = 6 / 10 ∧
      (⟨some 7, some "met at cafe", 0, "chat", 0⟩, (6 / 10 : ℚ))
        ∈ retrieveCandidates cfgBoundary 0 "q" [rowHalf] [] := by
  refine ⟨rfl, ?_⟩
  have h := (relevance_score_inclusive cfgBoundary 0 "q" [rowHalf] [] rowHalf
    (List.mem_singleton_self _) (by norm_num [rowHalf, cfgBoundary])).2
    (by norm_num [finalScore, rowHalf, cfgBoundary])
  rw [show finalScore cfgBoundary (rowHalf.similarity.getD 0) (rowHalf.days_ago.getD 0)
      = 6 / 10 from by norm_num [finalScore, rowHalf, cfgBoundary]] at h
  exact h

/-- Counterexample to C7 as stated: under the default configuration
(`min_relevance_score = 0.35`), a non-empty corpus entry with no keyword
hit scores the 0.05 baseline and is fully excluded from the candidate set
and the result. -/
theorem corpus_baseline_cex :
    ("abc" : String) ≠ "" ∧
      countHits (queryKeywords "xyz") (lowerStr "abc") = 0 ∧
      defaultRAGConfig.min_relevance_score = 35 / 100 ∧
      retrieveCandidates defaultRAGConfig 0 "xyz" [] ["abc"] = [] ∧
      retrieve_memory defaultRAGConfig 0 "xyz" [] ["abc"] = [] := by
  have h1 : queryKeywords "xyz" = ["xyz"] := by decide
  have h2 : countHits ["xyz"] (lowerStr "abc") = 0 := by decide
  have hcrs : corpusRawScore ["xyz"] "abc" = 5 / 100 := by
    norm_num [corpusRawScore, h2]
  have hcand : retrieveCandidates defaultRAGConfig 0 "xyz" [] ["abc"] = [] := by
    simp only [retrieveCandidates, scoreCorpusItem, defaultRAGConfig, h1, hcrs,
      List.filterMap_nil, List.filterMap_cons, List.nil_append, List.isEmpty_cons]
    norm_num
  refine ⟨by decide, by rw [h1]; exact h2, rfl, hcand, ?_⟩
  simp [retrieve_memory, hcand, sortDescBy]

/-- C7 amended.  Auxiliary corpus baseline: a non-empty corpus entry is
scored `0.3 × hit_count` when the lower-cased query tokens hit it at
least once and `0.05` otherwise, and it enters the merged candidate set
exactly when that score is at least `min_relevance_score` (so
baseline-scored entries are excluded whenever
`min_relevance_score > 0.05`). -/
theorem corpus_baseline_score (cfg : RAGConfig) (now : ℚ) (msg : String)
    (rows : List VectorRow) (corpus : List String) (c : String)
    (hc : c ∈ corpus) (hne : c ≠ "") :
    (scoreCorpusItem cfg (queryKeywords msg) now c =
      if cfg.min_relevance_score ≤ corpusRawScore (queryKeywords msg) c
      then some (⟨none, some c, now, "corpus", 0⟩,
        corpusRawScore (queryKeywords msg) c)
      else none) ∧
    (cfg.min_relevance_score ≤ corpusRawScore (queryKeywords msg) c →
      (⟨none, some c, now, "corpus", 0⟩, corpusRawScore (queryKeywords msg) c)
        ∈ retrieveCandidates cfg now msg rows corpus) := by
  have hbe : (c == "") = false := by
    rw [beq_eq_false_iff_ne]
    exact hne
  have hs : scoreCorpusItem cfg (queryKeywords msg) now c =
      if cfg.min_relevance_score ≤ corpusRawScore (queryKeywords msg) c
      then some (⟨none, some c, now, "corpus", 0⟩,
        corpusRawScore (queryKeywords msg) c)
      else none := by
    unfold scoreCorpusItem corpusRawScore
    rw [hbe]
    simp
  refine ⟨hs, fun h => ?_⟩
  have hcne : corpus.isEmpty = false := by
    cases corpus
    · cases hc
    · rfl
  unfold retrieveCandidates
  apply List.mem_append_right
  rw [hcne]
  simp only [Bool.false_eq_true, if_false]
  exact List.mem_filterMap.mpr ⟨c, hc, by rw [hs, if_pos h]⟩

/-- Witness for C7 amended: a corpus entry with two keyword hits scores
0.6 and enters the candidate set under the default configuration. -/
theorem corpus_baseline_score_witness :
    (⟨none, some "abc xyz", 0, "corpus", 0⟩,
        corpusRawScore (queryKeywords "abc xyz") "abc xyz")
      ∈ retrieveCandidates defaultRAGConfig 0 "abc xyz" [] ["abc xyz"] := by
  refine (corpus_baseline_score defaultRAGConfig 0 "abc xyz" [] ["abc xyz"]
    "abc xyz" (List.mem_singleton_self _) (by decide)).2 ?_
  have hh : countHits (queryKeywords "abc xyz") (lowerStr "abc xyz") = 2 := by decide
  rw [show corpusRawScore (queryKeywords "abc xyz") "abc xyz" = 6 / 10 from by
    norm_num [corpusRawScore, hh]]
  norm_num [defaultRAGConfig]

theorem fallbackQuery_mem (cfg : RAGConfig) (store : List MemoryRecord)
    (tid : Nat) (r : MemoryRecord) (hr : r ∈ fallbackQuery cfg store tid) :
    r ∈ store ∧ r.target_id = tid ∧ r.status = "active" := by
  unfold fallbackQuery at hr
  have hr' := List.mem_of_mem_take hr
  rw [mem_sortDescBy] at hr'
  rcases List.mem_filter.mp hr' with ⟨hs, hpred⟩
  rw [Bool.and_eq_true, Bool.and_eq_true] at hpred
  obtain ⟨⟨h1, _⟩, h3⟩ := hpred
  exact ⟨hs, by simpa using h1, by simpa using h3⟩

/-- Evaluation of the fallback path on a one-record store with a single
keyword hit and zero days of age: the item's score is `1`. -/
theorem fallback_rec1_eval :
    retrieve_memory_fallback defaultRAGConfig 0 "coffee" [rec1] 0 []
      = [⟨some 1, "likes coffee", 0, "chat", 0, 1⟩] := by
  have h1 : queryKeywords "coffee" = ["coffee"] := by decide
  have hq : fallbackQuery defaultRAGConfig [rec1] 0 = [rec1] := by decide
  have hsc : fallbackScoreMemory defaultRAGConfig 0 ["coffee"] rec1
      = some (⟨some 1, some "likes coffee", 0, "chat", 0⟩, 1) := by
    have h2 : countHits ["coffee"] (lowerStr "likes coffee") = 1 := by decide
    have hf : Rat.floor (0 : ℚ) = 0 := by decide
    simp only [fallbackScoreMemory, show rec1.content = some "likes coffee" from rfl,
      show rec1.happened_at = (0 : ℚ) from rfl,
      show rec1.id = 1 from rfl, show rec1.source_type = "chat" from rfl,
      show rec1.sentiment_score = 0 from rfl,
      show ("likes coffee" == "") = false from by decide]
    norm_num [h2, hf, fallbackRawScore, defaultRAGConfig]
  simp only [retrieve_memory_fallback, h1, hq, List.filterMap_cons, List.filterMap_nil,
    List.append_nil, hsc, sortDescBy, insertDescBy, List.take, List.map, packMemory,
    Option.getD_some]

/-- Counterexample to C8 as stated: a stored memory with one keyword hit
and zero days of age receives fallback score `1` (hits × time_factor),
while the spec's formula — corpus shape `0.3 × hit_count` times the time
factor — gives `0.3`. -/
theorem fallback_scoring_cex :
    retrieve_memory_fallback defaultRAGConfig 0 "coffee" [rec1] 0 []
        = [⟨some 1, "likes coffee", 0, "chat", 0, 1⟩] ∧
      fallbackRawScore defaultRAGConfig.time_decay_factor 1 0 = 1 ∧
      specFallbackScore defaultRAGConfig.time_decay_factor 1 0 = 3 / 10 ∧
      (1 : ℚ) ≠ 3 / 10 := by
  refine ⟨fallback_rec1_eval, ?_, ?_, by norm_num⟩
  · norm_num [fallbackRawScore, defaultRAGConfig]
  · norm_num [specFallbackScore, defaultRAGConfig]

/-- C8 amended.  Fallback scoring: every item the keyword fallback
returns has the same shape as primary-path items, and is either a stored
active memory of the owner scored
`hits × time_factor` when any keyword hit and `0.1 × time_factor`
otherwise (with `time_factor = 1 / (1 + days_ago × time_decay_factor)`
over whole days) — not the corpus shape times the time factor — or a
corpus entry scored by the corpus formula; in both cases the score is at
least `min_relevance_score`. -/
theorem fallback_scoring (cfg : RAGConfig) (now : ℚ) (msg : String)
    (store : List MemoryRecord) (tid : Nat) (corpus : List String)
    (item : RetrievedMemory)
    (hitem : item ∈ retrieve_memory_fallback cfg now msg store tid corpus) :
    (∃ r ∈ store, r.target_id = tid ∧ r.status = "active" ∧
      ∃ c, r.content = some c ∧ c ≠ "" ∧
        item = ⟨some r.id, c, r.happened_at, r.source_type, r.sentiment_score,
          fallbackRawScore cfg.time_decay_factor
            (countHits (queryKeywords msg) (lowerStr c))
            (Rat.floor (now - r.happened_at))⟩ ∧
        cfg.min_relevance_score ≤ item.relevance_score) ∨
    (∃ c ∈ corpus, c ≠ "" ∧
      item = ⟨none, c, now, "corpus", 0, corpusRawScore (queryKeywords msg) c⟩ ∧
      cfg.min_relevance_score ≤ item.relevance_score) := by
  unfold retrieve_memory_fallback at hitem
  rcases List.mem_map.mp hitem with ⟨p, hp, rfl⟩
  have hp' := List.mem_of_mem_take hp
  rw [mem_sortDescBy] at hp'
  rcases List.mem_append.mp hp' with hmem | hcor
  · left
    rcases List.mem_filterMap.mp hmem with ⟨r, hr, hscore⟩
    obtain ⟨hrs, hrt, hra⟩ := fallbackQuery_mem cfg store tid r hr
    rcases hc : r.content with _ | c
    · simp only [fallbackScoreMemory, hc] at hscore
      exact Option.noConfusion hscore
    · simp only [fallbackScoreMemory, hc] at hscore
      by_cases he : (c == "") = true
      · rw [if_pos he] at hscore
        exact Option.noConfusion hscore
      · rw [if_neg he] at hscore
        rw [Bool.not_eq_true] at he
        refine ⟨r, hrs, hrt, hra, c, hc, beq_eq_false_iff_ne.mp he, ?_⟩
        split at hscore
        · cases hscore
          constructor
          · rfl
          · assumption
        · cases hscore
  · right
    rcases List.mem_filterMap.mp hcor with ⟨c, hcc, hscore⟩
    simp only [scoreCorpusItem] at hscore
    by_cases he : (c == "") = true
    · rw [if_pos he] at hscore
      exact Option.noConfusion hscore
    · rw [if_neg he] at hscore
      rw [Bool.not_eq_true] at he
      refine ⟨c, hcc, beq_eq_false_iff_ne.mp he, ?_⟩
      split at hscore
      · cases hscore
        constructor
        · rfl
        · assumption
      · cases hscore

/-- Witness for C8 amended at a concrete fallback run. -/
theorem fallback_scoring_witness :
    (∃ r ∈ [rec1], r.target_id = 0 ∧ r.status = "active" ∧
      ∃ c, r.content = some c ∧ c ≠ "" ∧
        (⟨some 1, "likes coffee", 0, "chat", 0, 1⟩ : RetrievedMemory)
          = ⟨some r.id, c, r.happened_at, r.source_type, r.sentiment_score,
            fallbackRawScore defaultRAGConfig.time_decay_factor
              (countHits (queryKeywords "coffee") (lowerStr c))
              (Rat.floor (0 - r.happened_at))⟩ ∧
        defaultRAGConfig.min_relevance_score
          ≤ (⟨some 1, "likes coffee", 0, "chat", 0, 1⟩ : RetrievedMemory).relevance_score) ∨
    (∃ c ∈ ([] : List String), c ≠ "" ∧
      (⟨some 1, "likes coffee", 0, "chat", 0, 1⟩ : RetrievedMemory)
        = ⟨none, c, 0, "corpus", 0, corpusRawScore (queryKeywords "coffee") c⟩ ∧
      defaultRAGConfig.min_relevance_score
        ≤ (⟨some 1, "likes coffee", 0, "chat", 0, 1⟩ : RetrievedMemory).relevance_score) := by
  apply fallback_scoring defaultRAGConfig 0 "coffee" [rec1] 0 []
    ⟨some 1, "likes coffee", 0, "chat", 0, 1⟩
  rw [fallback_rec1_eval]
  exact List.mem_singleton_self _

end Philia
